import Mathlib

/-!
# RDPMux: verification of the wire codec and the per-VM listener state machine

Shallow embedding of the two source files of the repository:

* `src/lib/src/msgpack.c` — the shim-side wire codec: `mux_msg_reader`,
  `mux_process_incoming_msg` (and its per-tag handlers), and
  `mux_write_outgoing_msg` (and its per-shape writers), built on the cmp
  msgpack primitives (`cmp_read_uint`, `cmp_read_array`, `cmp_write_uint`,
  `cmp_write_array`), whose wire format is minimum-width big-endian
  unsigned integers and fixarray/array16/array32 headers.
* `src/src/rdp/RDPListener.cpp` — the per-VM listener:
  `processIncomingMessage`, `processDisplayUpdate`, `processDisplaySwitch`,
  `registerPeer`.

Machine integers are modelled as `Nat` with explicit `% 2^32` (resp.
`% 2^16`) where C width matters.  The byte cursor of `nnStr`
(`buf`/`size`/`pos`) is represented by the remaining suffix of the byte
list: advancing `pos` by `limit` is dropping `limit` bytes, and the bounds
check `pos + limit > size` of `mux_msg_reader` becomes
`limit > remaining.length`.

Event tags follow the protocol table (the enum header is not part of the
two source files): DISPLAY_UPDATE = 0, DISPLAY_SWITCH = 1,
DISPLAY_UPDATE_COMPLETE = 2, MOUSE = 3, KEYBOARD = 4, SHUTDOWN = 5.
-/

namespace RDPMux

/-- Error taxonomy of the codec (spec §7). -/
inductive CodecError where
  | truncated
  | badTag
  | badType
deriving DecidableEq

/-- Big-endian reassembly of a byte list into a natural number. -/
def bytesToNat (bs : List Nat) : Nat :=
  bs.foldl (fun acc b => acc * 256 + b) 0

/-- Embeds `mux_msg_reader` (msgpack.c): bounds-checked read of `limit`
bytes.  The cursor is the remaining suffix; the source's check
`pos + limit > size` is `limit > bs.length` here.  Returns the bytes read
and the advanced cursor, or `none` when the read would pass the buffer
end. -/
def mux_msg_reader (bs : List Nat) (limit : Nat) : Option (List Nat × List Nat) :=
  if bs.length < limit then none
  else some (bs.take limit, bs.drop limit)

/-- Embeds the cmp library's `cmp_read_uint` as called from msgpack.c
(result stored in a `uint32_t`): reads one msgpack unsigned integer.
Markers: positive fixint (`0x00`–`0x7f`), `uint8` (`0xcc`),
`uint16` (`0xcd`), `uint32` (`0xce`); any other marker is a type error.
All byte reads go through `mux_msg_reader`. -/
def cmp_read_uint (bs : List Nat) : Except CodecError (Nat × List Nat) :=
  match mux_msg_reader bs 1 with
  | none => .error .truncated
  | some (m, rest) =>
    let b := m.headD 0
    if b < 0x80 then .ok (b, rest)
    else if b = 0xcc then
      match mux_msg_reader rest 1 with
      | none => .error .truncated
      | some (p, rest2) => .ok (bytesToNat p, rest2)
    else if b = 0xcd then
      match mux_msg_reader rest 2 with
      | none => .error .truncated
      | some (p, rest2) => .ok (bytesToNat p, rest2)
    else if b = 0xce then
      match mux_msg_reader rest 4 with
      | none => .error .truncated
      | some (p, rest2) => .ok (bytesToNat p, rest2)
    else .error .badType

/-- Embeds the cmp library's `cmp_read_array`: reads a msgpack array
header.  Markers: fixarray (`0x90`–`0x9f`), `array16` (`0xdc`),
`array32` (`0xdd`). -/
def cmp_read_array (bs : List Nat) : Except CodecError (Nat × List Nat) :=
  match mux_msg_reader bs 1 with
  | none => .error .truncated
  | some (m, rest) =>
    let b := m.headD 0
    if 0x90 ≤ b ∧ b ≤ 0x9f then .ok (b - 0x90, rest)
    else if b = 0xdc then
      match mux_msg_reader rest 2 with
      | none => .error .truncated
      | some (p, rest2) => .ok (bytesToNat p, rest2)
    else if b = 0xdd then
      match mux_msg_reader rest 4 with
      | none => .error .truncated
      | some (p, rest2) => .ok (bytesToNat p, rest2)
    else .error .badType

/-- Embeds the cmp library's `cmp_write_uint`: minimum-width big-endian
msgpack encoding of an unsigned integer (all values written by the
sources fit in a `uint32_t`). -/
def cmp_write_uint (n : Nat) : List Nat :=
  if n < 0x80 then [n]
  else if n < 0x100 then [0xcc, n]
  else if n < 0x10000 then [0xcd, n / 0x100, n % 0x100]
  else [0xce, n / 0x1000000 % 0x100, n / 0x10000 % 0x100, n / 0x100 % 0x100, n % 0x100]

/-- Embeds the cmp library's `cmp_write_array`: msgpack array header,
minimum width. -/
def cmp_write_array (n : Nat) : List Nat :=
  if n < 0x10 then [0x90 + n]
  else if n < 0x10000 then [0xdc, n / 0x100, n % 0x100]
  else [0xdd, n / 0x1000000 % 0x100, n / 0x10000 % 0x100, n / 0x100 % 0x100, n % 0x100]

/-! ## Shim-side encoder: `mux_write_outgoing_msg` and its per-shape writers -/

/-- The `display_update` payload struct of a `MuxUpdate` (an
inclusive-exclusive rectangle; fields are `uint32_t` in the source). -/
structure display_update where
  x1 : Nat
  y1 : Nat
  x2 : Nat
  y2 : Nat
deriving DecidableEq

/-- The `display_switch` payload struct of a `MuxUpdate` (fields are
`uint32_t` in the source). -/
structure display_switch where
  format : Nat
  w : Nat
  h : Nat
deriving DecidableEq

/-- The `MuxUpdate` tagged union: `update->type` together with the payload
member actually read by the writer dispatched on that type. -/
inductive MuxUpdate where
  | update (u : display_update)
  | switch (u : display_switch)
deriving DecidableEq

/-- `2^32`, the modulus of `uint32_t` arithmetic. -/
def u32Mod : Nat := 4294967296

/-- Embeds `mux_write_outgoing_update_msg` (msgpack.c): array header 5,
then the tag (`update->type = DISPLAY_UPDATE = 0`), `x1`, `y1`,
`x2 - x1`, `y2 - y1` as msgpack uints.  The subtractions are `uint32_t`
arithmetic, hence the explicit `% 2^32` (fields are below `2^32`). -/
def mux_write_outgoing_update_msg (u : display_update) : List Nat :=
  cmp_write_array 5 ++ cmp_write_uint 0 ++ cmp_write_uint u.x1 ++ cmp_write_uint u.y1
    ++ cmp_write_uint ((u.x2 + u32Mod - u.x1) % u32Mod)
    ++ cmp_write_uint ((u.y2 + u32Mod - u.y1) % u32Mod)

/-- Embeds `mux_write_outgoing_switch_msg` (msgpack.c): array header 4,
then the tag (`update->type = DISPLAY_SWITCH = 1`), `format`, `w`, `h`. -/
def mux_write_outgoing_switch_msg (u : display_switch) : List Nat :=
  cmp_write_array 4 ++ cmp_write_uint 1 ++ cmp_write_uint u.format
    ++ cmp_write_uint u.w ++ cmp_write_uint u.h

/-- Embeds `mux_write_outgoing_shutdown_msg` (msgpack.c): array header 1,
then the tag `SHUTDOWN = 5`. -/
def mux_write_outgoing_shutdown_msg : List Nat :=
  cmp_write_array 1 ++ cmp_write_uint 5

/-- Embeds `mux_write_outgoing_msg` (msgpack.c): a `NULL` update writes a
shutdown message, otherwise dispatch on `update->type`. -/
def mux_write_outgoing_msg : Option MuxUpdate → List Nat
  | none => mux_write_outgoing_shutdown_msg
  | some (.update u) => mux_write_outgoing_update_msg u
  | some (.switch u) => mux_write_outgoing_switch_msg u

/-! ## Shim-side decoder: `mux_process_incoming_msg` and its handlers -/

/-- The shim-global `display` state touched by the decoder handlers: only
its `framerate` field is written (by `mux_process_incoming_complete_msg`). -/
structure ShimDisplay where
  framerate : Nat
deriving DecidableEq

/-- The callbacks the shim decoder can fire (`callbacks.mux_receive_mouse`,
`callbacks.mux_receive_kb`), with the decoded arguments. -/
inductive ShimCallback where
  | receive_mouse (x y flags : Nat)
  | receive_kb (keycode flags : Nat)
deriving DecidableEq

/-- Embeds `mux_process_incoming_kb_msg` (msgpack.c): reads `keycode` then
`flags`; on any failed read returns without firing the callback. -/
def mux_process_incoming_kb_msg (bs : List Nat) : Option ShimCallback :=
  match cmp_read_uint bs with
  | .error _ => none
  | .ok (keycode, bs1) =>
    match cmp_read_uint bs1 with
    | .error _ => none
    | .ok (flags, _) => some (.receive_kb keycode flags)

/-- Embeds `mux_process_incoming_mouse_msg` (msgpack.c): reads `mouse_x`,
`mouse_y`, `flags`; on any failed read returns without firing the
callback. -/
def mux_process_incoming_mouse_msg (bs : List Nat) : Option ShimCallback :=
  match cmp_read_uint bs with
  | .error _ => none
  | .ok (mouse_x, bs1) =>
    match cmp_read_uint bs1 with
    | .error _ => none
    | .ok (mouse_y, bs2) =>
      match cmp_read_uint bs2 with
      | .error _ => none
      | .ok (flags, _) => some (.receive_mouse mouse_x mouse_y flags)

/-- Embeds `mux_process_incoming_complete_msg` (msgpack.c): reads
`success`, rejects it unless it equals 1, reads `new_framerate` and stores
it in `display->framerate`.  (Dead code in the source: no decoding entry
point ever calls it — see the dispatch below.) -/
def mux_process_incoming_complete_msg (bs : List Nat) (d : ShimDisplay) : ShimDisplay :=
  match cmp_read_uint bs with
  | .error _ => d
  | .ok (success, bs1) =>
    if success ≠ 1 then d
    else
      match cmp_read_uint bs1 with
      | .error _ => d
      | .ok (new_framerate, _) => { framerate := new_framerate }

/-- Embeds `mux_process_incoming_msg` (msgpack.c): reads the array header
(size ignored), reads the tag, and dispatches: `MOUSE = 3` and
`KEYBOARD = 4` go to their handlers; `DISPLAY_UPDATE_COMPLETE = 2` is
`break` — nothing is called and the payload is never read; any other tag
is logged as invalid.  Result: the (possibly updated) shim display state
and the callback fired, if any. -/
def mux_process_incoming_msg (d : ShimDisplay) (buf : List Nat) :
    ShimDisplay × Option ShimCallback :=
  match cmp_read_array buf with
  | .error _ => (d, none)
  | .ok (_, bs1) =>
    match cmp_read_uint bs1 with
    | .error _ => (d, none)
    | .ok (msg_type, bs2) =>
      if msg_type = 3 then (d, mux_process_incoming_mouse_msg bs2)
      else if msg_type = 4 then (d, mux_process_incoming_kb_msg bs2)
      else if msg_type = 2 then (d, none)
      else (d, none)

/-! ## Multiplexer-side codec (spec-modelled: lives in RDPServerWorker,
which is not among the source files) -/

/-- Modelled from the spec: the multiplexer-side serializer
(`RDPServerWorker`, not in src/) writes one msgpack array whose elements
are the entries of the outgoing vector (tag first, then the payload
fields), each as a minimum-width unsigned integer (spec §4.1, §6). -/
def encodeMuxOutgoing (v : List Nat) : List Nat :=
  cmp_write_array v.length ++ (v.map cmp_write_uint).flatten

/-- Payload field count per tag, from the spec §3 table. -/
def eventFieldCount (t : Nat) : Option Nat :=
  if t = 0 then some 4
  else if t = 1 then some 3
  else if t = 2 then some 2
  else if t = 3 then some 3
  else if t = 4 then some 2
  else if t = 5 then some 0
  else none

/-- Reads exactly `n` msgpack unsigned integers. -/
def cmp_read_uints : Nat → List Nat → Except CodecError (List Nat × List Nat)
  | 0, bs => .ok ([], bs)
  | n + 1, bs =>
    match cmp_read_uint bs with
    | .error e => .error e
    | .ok (v, bs1) =>
      match cmp_read_uints n bs1 with
      | .error e => .error e
      | .ok (vs, bs2) => .ok (v :: vs, bs2)

/-- Modelled from the spec: the multiplexer-side decoder
(`RDPServerWorker`, not in src/) reads the array header (length ignored
for routing), reads the tag, and reads exactly the number of unsigned
integers the spec §3 table defines for that tag, producing the event as
the `uint32` vector `[tag, fields…]` handed to
`RDPListener::processIncomingMessage`; it fails with `Truncated`,
`BadTag` or `BadType` (spec §4.1). -/
def decodeMuxIncoming (buf : List Nat) : Except CodecError (List Nat) :=
  match cmp_read_array buf with
  | .error e => .error e
  | .ok (_, bs1) =>
    match cmp_read_uint bs1 with
    | .error e => .error e
    | .ok (t, bs2) =>
      match eventFieldCount t with
      | none => .error .badTag
      | some k =>
        match cmp_read_uints k bs2 with
        | .error e => .error e
        | .ok (fields, _) => .ok (t :: fields)

/-! ## The per-VM listener: `RDPListener` (RDPListener.cpp) -/

/-- A connected peer (`RDPPeer`); only its reported capture frame rate is
relevant to the listener code under scrutiny. -/
structure RDPPeer where
  captureFps : Nat
deriving DecidableEq

/-- Calls a listener can make on a peer (`PartialDisplayUpdate`,
`FullDisplayUpdate`). -/
inductive PeerCall where
  | regionUpdate (x y w h : Nat)
  | wholeUpdate (w h format : Nat)
deriving DecidableEq

/-- Observable side effects of one listener operation: outbound vectors
passed to `parent->sendMessage` / `queueOutgoingMessage`, calls made on
peers, and the number of `shm_open` and `mmap` system calls issued. -/
structure ListenerOutput where
  sent : List (List Nat)
  peerCalls : List PeerCall
  shmOpenCalls : Nat
  mmapCalls : Nat
deriving DecidableEq

/-- No side effects. -/
def emptyOutput : ListenerOutput :=
  { sent := [], peerCalls := [], shmOpenCalls := 0, mmapCalls := 0 }

/-- The `RDPListener` state: the fields of the C++ object the two source
files read or write.  `shm_buffer` records whether the framebuffer
shared-memory mapping exists (pointer non-null). -/
structure RDPListener where
  vm_id : Nat
  width : Nat
  height : Nat
  format : Nat
  shm_buffer : Bool
  peerlist : List RDPPeer
  targetFPS : Nat
  stop : Bool
deriving DecidableEq

/-- `2^16`, the modulus of `uint16_t` arithmetic (the outbound vector is a
`std::vector<uint16_t>`). -/
def u16Mod : Nat := 65536

/-- Embeds `RDPListener::processDisplayUpdate`: reads `x`, `y`, `w`, `h`
with `msg.at(1)`…`msg.at(4)` (`std::vector::at` throws when the vector is
shorter, modelled as `none`).  The peer broadcast and the `targetFPS`
recomputation are commented out in the source, so the peers and the frame
rate are untouched; the only effect is pushing the ack vector
`[DISPLAY_UPDATE_COMPLETE = 2, 1, targetFPS]` (as `uint16_t`) to
`parent->sendMessage`. -/
def processDisplayUpdate (l : RDPListener) (msg : List Nat) :
    Option (RDPListener × ListenerOutput) :=
  if msg.length < 5 then none
  else
    some (l, { sent := [[2, 1, l.targetFPS % u16Mod]], peerCalls := [],
               shmOpenCalls := 0, mmapCalls := 0 })

/-- Embeds `RDPListener::processDisplaySwitch`: reads `displayWidth`,
`displayHeight`, `displayFormat` from `msg.at(2)`, `msg.at(3)`,
`msg.at(1)`.  If no framebuffer is mapped yet it calls `shm_open` on
`/{vm_id}.rdpmux` and `mmap`; on `MAP_FAILED` it logs and returns with no
state change (`mmapOk` models the success of that open/map pair).
Afterwards `width`, `height`, `format` are updated unconditionally.  The
full-display peer broadcast is commented out in the source. -/
def processDisplaySwitch (l : RDPListener) (msg : List Nat) (mmapOk : Bool) :
    Option (RDPListener × ListenerOutput) :=
  if msg.length < 4 then none
  else
    let displayWidth := msg.getD 2 0
    let displayHeight := msg.getD 3 0
    let displayFormat := msg.getD 1 0
    if l.shm_buffer = false then
      if mmapOk = false then
        some (l, { sent := [], peerCalls := [], shmOpenCalls := 1, mmapCalls := 1 })
      else
        some ({ l with shm_buffer := true, width := displayWidth,
                       height := displayHeight, format := displayFormat },
              { sent := [], peerCalls := [], shmOpenCalls := 1, mmapCalls := 1 })
    else
      some ({ l with width := displayWidth, height := displayHeight,
                     format := displayFormat },
            emptyOutput)

/-- Embeds `RDPListener::registerPeer`: the entire body is commented out
in the source, so the call has no effect — the peer is not added to
`peerlist` and no update is sent to it. -/
def registerPeer (l : RDPListener) (p : RDPPeer) : RDPListener × ListenerOutput :=
  (l, emptyOutput)

/-- Embeds `RDPListener::processIncomingMessage`: dispatch on `rvec[0]` —
`DISPLAY_UPDATE = 0`, `DISPLAY_SWITCH = 1`, `SHUTDOWN = 5` (sets the stop
flag), anything else is logged and discarded.  The stop flag is never
consulted.  `rvec[0]` on an empty vector is undefined behaviour, modelled
as `none`. -/
def processIncomingMessage (l : RDPListener) (rvec : List Nat) (mmapOk : Bool) :
    Option (RDPListener × ListenerOutput) :=
  match rvec with
  | [] => none
  | t :: _ =>
    if t = 0 then processDisplayUpdate l rvec
    else if t = 1 then processDisplaySwitch l rvec mmapOk
    else if t = 5 then some ({ l with stop := true }, emptyOutput)
    else some (l, emptyOutput)

/-- One listener step on raw wire bytes: the multiplexer-side decode
(spec-modelled, see `decodeMuxIncoming`) followed by the listener
dispatch; a codec error discards the frame with no dispatch (spec §7). -/
def listenerStep (l : RDPListener) (buf : List Nat) (mmapOk : Bool) :
    Option (RDPListener × ListenerOutput) :=
  match decodeMuxIncoming buf with
  | .error _ => some (l, emptyOutput)
  | .ok rvec => processIncomingMessage l rvec mmapOk

/-- The listener as constructed by `RDPListener::RDPListener`:
`shm_buffer(nullptr)`, `targetFPS(30)`, `stop = false`, empty peer list.
`width`, `height`, `format` carry no initializer in the source, so the
initial values are arbitrary parameters here. -/
def initListener (vm w0 h0 f0 : Nat) : RDPListener :=
  { vm_id := vm, width := w0, height := h0, format := f0,
    shm_buffer := false, peerlist := [], targetFPS := 30, stop := false }

/-- An input consumed by a running listener: a decoded incoming vector
(with the fate of the open/map pair it may trigger), or a peer
registration. -/
inductive LEvent where
  | incoming (rvec : List Nat) (mmapOk : Bool)
  | reg (p : RDPPeer)

/-- Runs a listener over a sequence of inputs (outputs discarded);
`none` when some dispatch hits undefined behaviour. -/
def listenerRun (l : RDPListener) : List LEvent → Option RDPListener
  | [] => some l
  | .incoming rvec mmapOk :: es =>
    match processIncomingMessage l rvec mmapOk with
    | none => none
    | some (l1, _) => listenerRun l1 es
  | .reg p :: es => listenerRun (registerPeer l p).1 es

/-- The spec's words for the frame-rate feedback rule (§4.2): per peer,
`targetFPS ← (targetFPS + peer.captureFps) / 2`, then clamp to `[3, 30]`.
Stated only to compare against the source behaviour. -/
def specTargetFPSUpdate (t : Nat) (peers : List RDPPeer) : Nat :=
  peers.foldl (fun acc p => min 30 (max 3 ((acc + p.captureFps) / 2))) t

/-! ## Codec lemmas -/

theorem mux_msg_reader_one (a : Nat) (l : List Nat) :
    mux_msg_reader (a :: l) 1 = some ([a], l) := by
  simp [mux_msg_reader]

theorem mux_msg_reader_two (a b : Nat) (l : List Nat) :
    mux_msg_reader (a :: b :: l) 2 = some ([a, b], l) := by
  simp [mux_msg_reader]

theorem mux_msg_reader_four (a b c d : Nat) (l : List Nat) :
    mux_msg_reader (a :: b :: c :: d :: l) 4 = some ([a, b, c, d], l) := by
  simp [mux_msg_reader]

/-- Reading back a minimum-width unsigned integer written by
`cmp_write_uint` yields the written value and leaves the cursor right
after it. -/
theorem read_write_uint (n : Nat) (rest : List Nat) (h : n < u32Mod) :
    cmp_read_uint (cmp_write_uint n ++ rest) = .ok (n, rest) := by
  by_cases h1 : n < 0x80
  · simp [cmp_write_uint, h1, cmp_read_uint, mux_msg_reader_one]
  · by_cases h2 : n < 0x100
    · simp [cmp_write_uint, h1, h2, cmp_read_uint, mux_msg_reader_one, bytesToNat]
    · by_cases h3 : n < 0x10000
      · simp [cmp_write_uint, h1, h2, h3, cmp_read_uint, mux_msg_reader_one,
              mux_msg_reader_two, bytesToNat]
        omega
      · simp [cmp_write_uint, h1, h2, h3, cmp_read_uint, mux_msg_reader_one,
              mux_msg_reader_four, bytesToNat]
        unfold u32Mod at h
        omega

/-- Reading back a fixarray header written by `cmp_write_array`. -/
theorem read_write_array (n : Nat) (rest : List Nat) (h : n < 16) :
    cmp_read_array (cmp_write_array n ++ rest) = .ok (n, rest) := by
  have h16 : n < 0x10 := h
  simp only [cmp_write_array, if_pos h16, List.cons_append, List.nil_append]
  simp [cmp_read_array, mux_msg_reader_one]
  intro h2
  exact absurd h2 (by omega)

/-- Reading back a sequence of written unsigned integers. -/
theorem read_write_uints (vs : List Nat) (rest : List Nat)
    (h : ∀ v ∈ vs, v < u32Mod) :
    cmp_read_uints vs.length ((vs.map cmp_write_uint).flatten ++ rest) = .ok (vs, rest) := by
  induction vs generalizing rest with
  | nil => simp [cmp_read_uints]
  | cons v vs ih =>
    have hv : v < u32Mod := h v (List.mem_cons_self v vs)
    have hvs : ∀ w ∈ vs, w < u32Mod := fun w hw => h w (List.mem_cons_of_mem v hw)
    simp only [List.map_cons, List.flatten_cons, List.length_cons, List.append_assoc]
    rw [cmp_read_uints, read_write_uint v _ hv]
    simp [ih rest hvs]

/-- Specialisation of `read_write_uints` to an exactly-consumed buffer. -/
theorem read_write_uints_nil (vs : List Nat) (h : ∀ v ∈ vs, v < u32Mod) :
    cmp_read_uints vs.length (vs.map cmp_write_uint).flatten = .ok (vs, []) := by
  have h0 := read_write_uints vs [] h
  simpa using h0

/-- A whole frame written as header, tag, fields decodes (multiplexer
side) to `tag :: fields` whenever the tag's field count matches. -/
theorem decode_encode_frame (t : Nat) (vs : List Nat) (k : Nat)
    (hk : eventFieldCount t = some k) (hkv : k = vs.length)
    (ht : t < u32Mod) (hv : ∀ v ∈ vs, v < u32Mod) (hlen : 1 + vs.length < 16) :
    decodeMuxIncoming
      (cmp_write_array (1 + vs.length) ++ cmp_write_uint t ++ (vs.map cmp_write_uint).flatten) =
      .ok (t :: vs) := by
  subst hkv
  have ha := read_write_array (1 + vs.length)
    (cmp_write_uint t ++ (vs.map cmp_write_uint).flatten) hlen
  have hu := read_write_uint t ((vs.map cmp_write_uint).flatten) ht
  have hs := read_write_uints_nil vs hv
  simp [decodeMuxIncoming, List.append_assoc, ha, hu, hk, hs]

/-- `cmp_read_uint` on an exactly-consuming buffer. -/
theorem read_write_uint_nil (n : Nat) (h : n < u32Mod) :
    cmp_read_uint (cmp_write_uint n) = .ok (n, []) := by
  have h0 := read_write_uint n [] h
  simpa using h0

/-- The shim-side writer output for a display update, in header/tag/fields
normal form. -/
theorem write_update_shape (u : display_update) :
    mux_write_outgoing_update_msg u =
      cmp_write_array (1 + 4) ++ cmp_write_uint 0 ++
        (([u.x1, u.y1, (u.x2 + u32Mod - u.x1) % u32Mod,
           (u.y2 + u32Mod - u.y1) % u32Mod].map cmp_write_uint)).flatten := by
  simp [mux_write_outgoing_update_msg, List.append_assoc]

/-- The shim-side writer output for a display switch, in header/tag/fields
normal form. -/
theorem write_switch_shape (u : display_switch) :
    mux_write_outgoing_switch_msg u =
      cmp_write_array (1 + 3) ++ cmp_write_uint 1 ++
        (([u.format, u.w, u.h].map cmp_write_uint)).flatten := by
  simp [mux_write_outgoing_switch_msg, List.append_assoc]

/-- Decoding (multiplexer side) the shim's encoding of a display update
yields the wire array `[0, x1, y1, x2 − x1, y2 − y1]`. -/
theorem decode_write_update (u : display_update)
    (hx : u.x1 < u32Mod) (hy : u.y1 < u32Mod) :
    decodeMuxIncoming (mux_write_outgoing_update_msg u) =
      .ok [0, u.x1, u.y1, (u.x2 + u32Mod - u.x1) % u32Mod,
           (u.y2 + u32Mod - u.y1) % u32Mod] := by
  rw [write_update_shape]
  have hM : 0 < u32Mod := by norm_num [u32Mod]
  have h := decode_encode_frame 0
    [u.x1, u.y1, (u.x2 + u32Mod - u.x1) % u32Mod, (u.y2 + u32Mod - u.y1) % u32Mod]
    4 (by rfl) (by rfl) (by norm_num [u32Mod]) ?_ (by norm_num)
  · simpa using h
  · intro v hv
    simp only [List.mem_cons, List.not_mem_nil, or_false] at hv
    rcases hv with h | h | h | h <;> subst h
    · exact hx
    · exact hy
    · exact Nat.mod_lt _ hM
    · exact Nat.mod_lt _ hM

/-- Decoding (multiplexer side) the shim's encoding of a display switch
yields the wire array `[1, format, w, h]`. -/
theorem decode_write_switch (u : display_switch)
    (hf : u.format < u32Mod) (hw : u.w < u32Mod) (hh : u.h < u32Mod) :
    decodeMuxIncoming (mux_write_outgoing_switch_msg u) = .ok [1, u.format, u.w, u.h] := by
  rw [write_switch_shape]
  have h := decode_encode_frame 1 [u.format, u.w, u.h]
    3 (by rfl) (by rfl) (by norm_num [u32Mod]) ?_ (by norm_num)
  · simpa using h
  · intro v hv
    simp only [List.mem_cons, List.not_mem_nil, or_false] at hv
    rcases hv with h | h | h <;> subst h
    · exact hf
    · exact hw
    · exact hh

/-- Decoding (multiplexer side) the shim's shutdown message yields `[5]`. -/
theorem decode_write_shutdown :
    decodeMuxIncoming mux_write_outgoing_shutdown_msg = .ok [5] := by
  rfl

/-- The shim decoder fires `mux_receive_mouse` with the encoded arguments
on a multiplexer-encoded mouse message. -/
theorem shim_decode_mouse (d : ShimDisplay) (x y fl : Nat)
    (hx : x < u32Mod) (hy : y < u32Mod) (hf : fl < u32Mod) :
    mux_process_incoming_msg d (encodeMuxOutgoing [3, x, y, fl]) =
      (d, some (.receive_mouse x y fl)) := by
  have ha := read_write_array 4
    (cmp_write_uint 3 ++ (cmp_write_uint x ++ (cmp_write_uint y ++ cmp_write_uint fl)))
    (by norm_num)
  have h3 := read_write_uint 3 (cmp_write_uint x ++ (cmp_write_uint y ++ cmp_write_uint fl))
    (by norm_num [u32Mod])
  have hxr := read_write_uint x (cmp_write_uint y ++ cmp_write_uint fl) hx
  have hyr := read_write_uint y (cmp_write_uint fl) hy
  have hfr := read_write_uint_nil fl hf
  simp [encodeMuxOutgoing, mux_process_incoming_msg, mux_process_incoming_mouse_msg,
        List.append_assoc, ha, h3, hxr, hyr, hfr]

/-- The shim decoder fires `mux_receive_kb` with the encoded arguments on
a multiplexer-encoded keyboard message. -/
theorem shim_decode_kb (d : ShimDisplay) (k fl : Nat)
    (hk : k < u32Mod) (hf : fl < u32Mod) :
    mux_process_incoming_msg d (encodeMuxOutgoing [4, k, fl]) =
      (d, some (.receive_kb k fl)) := by
  have ha := read_write_array 3
    (cmp_write_uint 4 ++ (cmp_write_uint k ++ cmp_write_uint fl))
    (by norm_num)
  have h4 := read_write_uint 4 (cmp_write_uint k ++ cmp_write_uint fl)
    (by norm_num [u32Mod])
  have hkr := read_write_uint k (cmp_write_uint fl) hk
  have hfr := read_write_uint_nil fl hf
  simp [encodeMuxOutgoing, mux_process_incoming_msg, mux_process_incoming_kb_msg,
        List.append_assoc, ha, h4, hkr, hfr]

/-! ## Listener lemmas -/

/-- No branch of the incoming dispatch writes `targetFPS` (the
recomputation in `processDisplayUpdate` is commented out in the source). -/
theorem processIncomingMessage_targetFPS (l : RDPListener) (rvec : List Nat)
    (mmapOk : Bool) (l1 : RDPListener) (out : ListenerOutput)
    (h : processIncomingMessage l rvec mmapOk = some (l1, out)) :
    l1.targetFPS = l.targetFPS := by
  cases rvec with
  | nil => simp [processIncomingMessage] at h
  | cons t rest =>
    simp only [processIncomingMessage] at h
    split_ifs at h with h0 h1 h5
    · simp only [processDisplayUpdate] at h
      split_ifs at h
      simp only [Option.some.injEq, Prod.mk.injEq] at h
      rw [← h.1]
    · simp only [processDisplaySwitch] at h
      split_ifs at h <;> simp only [Option.some.injEq, Prod.mk.injEq] at h <;> rw [← h.1]
    · simp only [Option.some.injEq, Prod.mk.injEq] at h
      rw [← h.1]
    · simp only [Option.some.injEq, Prod.mk.injEq] at h
      rw [← h.1]

/-- `targetFPS` is invariant along any run of the listener. -/
theorem listenerRun_targetFPS (evs : List LEvent) (l l1 : RDPListener)
    (h : listenerRun l evs = some l1) : l1.targetFPS = l.targetFPS := by
  induction evs generalizing l with
  | nil =>
    simp only [listenerRun, Option.some.injEq] at h
    rw [← h]
  | cons e es ih =>
    cases e with
    | incoming rvec mmapOk =>
      simp only [listenerRun] at h
      cases hstep : processIncomingMessage l rvec mmapOk with
      | none => rw [hstep] at h; simp at h
      | some p =>
        obtain ⟨l2, out⟩ := p
        rw [hstep] at h
        rw [ih l2 h, processIncomingMessage_targetFPS l rvec mmapOk l2 out hstep]
    | reg p =>
      simp only [listenerRun, registerPeer] at h
      exact ih l h

/-! ## Claims -/

/-- C1 (amended): decoding the bytes produced by encoding an event yields
the event again for tags 0, 1, 3, 4 and 5 — shim-encoded events decode on
the multiplexer side to their §3 wire array, and multiplexer-encoded
mouse/keyboard events fire the shim callback with the same fields — and
encoding `DisplayUpdate` with the inclusive-exclusive rectangle
`(10, 20, 110, 220)` produces bytes that decode to `[0, 10, 20, 100, 200]`.
The round trip does not hold for tag 2 (`DisplayUpdateComplete`): the shim
decoder discards that message without reading its payload (see the
counterexample). -/
theorem C1_roundtrip_amended :
    (∀ (x y w h : Nat), x < u32Mod → y < u32Mod → w < u32Mod → h < u32Mod →
      decodeMuxIncoming (mux_write_outgoing_msg
        (some (.update ⟨x, y, (x + w) % u32Mod, (y + h) % u32Mod⟩))) =
        .ok [0, x, y, w, h])
  ∧ (∀ (f w h : Nat), f < u32Mod → w < u32Mod → h < u32Mod →
      decodeMuxIncoming (mux_write_outgoing_msg (some (.switch ⟨f, w, h⟩))) =
        .ok [1, f, w, h])
  ∧ decodeMuxIncoming (mux_write_outgoing_msg none) = .ok [5]
  ∧ (∀ (x y fl : Nat) (d : ShimDisplay), x < u32Mod → y < u32Mod → fl < u32Mod →
      mux_process_incoming_msg d (encodeMuxOutgoing [3, x, y, fl]) =
        (d, some (.receive_mouse x y fl)))
  ∧ (∀ (k fl : Nat) (d : ShimDisplay), k < u32Mod → fl < u32Mod →
      mux_process_incoming_msg d (encodeMuxOutgoing [4, k, fl]) =
        (d, some (.receive_kb k fl)))
  ∧ decodeMuxIncoming (mux_write_outgoing_msg (some (.update ⟨10, 20, 110, 220⟩))) =
      .ok [0, 10, 20, 100, 200] := by
  refine ⟨?_, ?_, decode_write_shutdown,
          fun x y fl d hx hy hf => shim_decode_mouse d x y fl hx hy hf,
          fun k fl d hk hf => shim_decode_kb d k fl hk hf, by rfl⟩
  · intro x y w h hx hy hw hh
    rw [mux_write_outgoing_msg, decode_write_update ⟨x, y, (x + w) % u32Mod, (y + h) % u32Mod⟩ hx hy]
    have hwmod : ((x + w) % u32Mod + u32Mod - x) % u32Mod = w := by
      unfold u32Mod at hx hy hw hh ⊢
      omega
    have hhmod : ((y + h) % u32Mod + u32Mod - y) % u32Mod = h := by
      unfold u32Mod at hx hy hw hh ⊢
      omega
    rw [show (⟨x, y, (x + w) % u32Mod, (y + h) % u32Mod⟩ : display_update).x1 = x from rfl]
    simp only [hwmod, hhmod]
  · intro f w h hf hw hh
    rw [mux_write_outgoing_msg]
    exact decode_write_switch ⟨f, w, h⟩ hf hw hh

/-- C1 witness: the amended round trip at concrete inputs — the
`DisplayUpdate(10, 20, 110, 220)` instance and a keyboard event. -/
theorem C1_roundtrip_amended_witness :
    (58 : Nat) < u32Mod ∧ (3 : Nat) < u32Mod
  ∧ decodeMuxIncoming (mux_write_outgoing_msg (some (.update ⟨10, 20, 110, 220⟩))) =
      .ok [0, 10, 20, 100, 200]
  ∧ mux_process_incoming_msg ⟨60⟩ (encodeMuxOutgoing [4, 58, 3]) =
      (⟨60⟩, some (.receive_kb 58 3)) :=
  ⟨by norm_num [u32Mod], by norm_num [u32Mod],
   C1_roundtrip_amended.2.2.2.2.2,
   C1_roundtrip_amended.2.2.2.2.1 58 3 ⟨60⟩ (by norm_num [u32Mod]) (by norm_num [u32Mod])⟩

/-- C1 counterexample: `decode(encode(e)) == e` fails at
`e = DisplayUpdateComplete(success = 1, framerate = 30)`.  The encoded
message is `[0x93, 2, 1, 30]`; the shim decoder (the only decoding entry
point for mux→shim messages) leaves the display state unchanged and fires
no callback, although the payload is on the wire — the dead handler
`mux_process_incoming_complete_msg`, applied to the cursor after the tag,
would have yielded framerate 30. -/
theorem C1_roundtrip_counterexample :
    encodeMuxOutgoing [2, 1, 30] = [0x93, 2, 1, 30]
  ∧ mux_process_incoming_msg ⟨7⟩ [0x93, 2, 1, 30] = (⟨7⟩, none)
  ∧ mux_process_incoming_complete_msg [1, 30] ⟨7⟩ = ⟨30⟩
  ∧ (7 : Nat) ≠ 30 := by
  exact ⟨rfl, rfl, rfl, by decide⟩

/-- C2 counterexample: a listener with one registered peer processes
`DisplayUpdate(10, 20, 100, 200)`; the claim predicts exactly one
partial-display update call for that peer, but the broadcast loop is
commented out in the source — the output contains zero peer calls. -/
theorem C2_broadcast_counterexample :
    processDisplayUpdate
      { vm_id := 1, width := 800, height := 600, format := 67, shm_buffer := true,
        peerlist := [{ captureFps := 16 }], targetFPS := 30, stop := false }
      [0, 10, 20, 100, 200] =
      some ({ vm_id := 1, width := 800, height := 600, format := 67, shm_buffer := true,
              peerlist := [{ captureFps := 16 }], targetFPS := 30, stop := false },
            { sent := [[2, 1, 30]], peerCalls := [], shmOpenCalls := 0, mmapCalls := 0 })
  ∧ ([{ captureFps := 16 }] : List RDPPeer).length = 1
  ∧ ([] : List PeerCall).count (.regionUpdate 10 20 100 200) = 0
  ∧ (0 : Nat) ≠ 1 :=
  ⟨rfl, rfl, rfl, by decide⟩

/-- C2 (amended): on an incoming `DisplayUpdate`, no peer receives any
call at all — the broadcast is commented out in the source; the listener
state is unchanged and the only side effect is the single ack enqueue. -/
theorem C2_no_peer_broadcast_amended (l : RDPListener) (msg : List Nat)
    (h5 : 5 ≤ msg.length) :
    processDisplayUpdate l msg =
      some (l, { sent := [[2, 1, l.targetFPS % u16Mod]], peerCalls := [],
                 shmOpenCalls := 0, mmapCalls := 0 }) := by
  simp only [processDisplayUpdate, if_neg (by omega : ¬ msg.length < 5)]

/-- C2 witness: the amended statement at a concrete listener and message. -/
theorem C2_no_peer_broadcast_amended_witness :
    5 ≤ ([0, 10, 20, 100, 200] : List Nat).length
  ∧ processDisplayUpdate (initListener 7 640 480 67) [0, 10, 20, 100, 200] =
      some (initListener 7 640 480 67,
            { sent := [[2, 1, 30]], peerCalls := [], shmOpenCalls := 0, mmapCalls := 0 }) :=
  ⟨by decide, C2_no_peer_broadcast_amended (initListener 7 640 480 67) [0, 10, 20, 100, 200] (by decide)⟩

/-- C3: each incoming `DisplayUpdate` dispatch enqueues exactly one
outbound vector, `DisplayUpdateComplete(success = 1, framerate =
targetFPS)`, within that same dispatch step (so before any next incoming
event is processed); the listener state is unchanged.  The `targetFPS <
2^16` bound discharges the `uint16_t` conversion of the outbound vector;
it holds in every reachable state, where `targetFPS = 30`. -/
theorem C3_ack_exactly_once (l : RDPListener) (msg : List Nat)
    (h5 : 5 ≤ msg.length) (hfps : l.targetFPS < u16Mod) :
    processDisplayUpdate l msg =
      some (l, { sent := [[2, 1, l.targetFPS]], peerCalls := [],
                 shmOpenCalls := 0, mmapCalls := 0 }) := by
  simp only [processDisplayUpdate, if_neg (by omega : ¬ msg.length < 5),
             Nat.mod_eq_of_lt hfps]

/-- C3 witness: the ack at a concrete listener and message. -/
theorem C3_ack_exactly_once_witness :
    5 ≤ ([0, 10, 20, 100, 200] : List Nat).length
  ∧ (initListener 7 640 480 67).targetFPS < u16Mod
  ∧ processDisplayUpdate (initListener 7 640 480 67) [0, 10, 20, 100, 200] =
      some (initListener 7 640 480 67,
            { sent := [[2, 1, 30]], peerCalls := [], shmOpenCalls := 0, mmapCalls := 0 }) :=
  ⟨by decide, by decide,
   C3_ack_exactly_once (initListener 7 640 480 67) [0, 10, 20, 100, 200] (by decide) (by decide)⟩

/-- C4 counterexample: a listener with one peer reporting
`captureFps = 1` and `targetFPS = 30` processes a `DisplayUpdate`.  The
claim's per-peer running average (the spec's rule, `specTargetFPSUpdate`)
predicts `(30 + 1) / 2 = 15`; the source leaves `targetFPS` at 30 — the
recomputation is commented out. -/
theorem C4_fps_counterexample :
    (processDisplayUpdate
      { vm_id := 1, width := 800, height := 600, format := 67, shm_buffer := true,
        peerlist := [{ captureFps := 1 }], targetFPS := 30, stop := false }
      [0, 10, 20, 100, 200]).map (fun r => r.1.targetFPS) = some 30
  ∧ specTargetFPSUpdate 30 [{ captureFps := 1 }] = 15
  ∧ (30 : Nat) ≠ 15 :=
  ⟨rfl, rfl, by decide⟩

/-- C4 (amended): `targetFPS` is never recomputed — the averaging and
clamping code is commented out in the source.  Along every run from
construction it keeps its initial value 30, which lies in `[3, 30]`. -/
theorem C4_targetFPS_amended (vm w0 h0 f0 : Nat) (evs : List LEvent)
    (lf : RDPListener) (h : listenerRun (initListener vm w0 h0 f0) evs = some lf) :
    lf.targetFPS = 30 ∧ 3 ≤ lf.targetFPS ∧ lf.targetFPS ≤ 30 := by
  have h30 := listenerRun_targetFPS evs _ lf h
  rw [show (initListener vm w0 h0 f0).targetFPS = 30 from rfl] at h30
  exact ⟨h30, by omega, by omega⟩

/-- C4 witness: a concrete run (one display update, one peer
registration) ending with `targetFPS = 30`. -/
theorem C4_targetFPS_amended_witness :
    listenerRun (initListener 1 640 480 77)
      [.incoming [0, 10, 20, 100, 200] true, .reg { captureFps := 1 }] =
      some (initListener 1 640 480 77)
  ∧ (initListener 1 640 480 77).targetFPS = 30 := by
  have hrun : listenerRun (initListener 1 640 480 77)
      [.incoming [0, 10, 20, 100, 200] true, .reg { captureFps := 1 }] =
      some (initListener 1 640 480 77) := rfl
  exact ⟨hrun, (C4_targetFPS_amended 1 640 480 77 _ _ hrun).1⟩

/-- C5: once a framebuffer mapping exists (`shm_buffer ≠ nullptr`), a
`DisplaySwitch` performs no `shm_open` and no `mmap` call and changes
exactly the `width`, `height` and `format` fields (to `msg[2]`, `msg[3]`,
`msg[1]`); all other state is untouched and nothing is sent. -/
theorem C5_map_at_most_once (l : RDPListener) (msg : List Nat) (mmapOk : Bool)
    (hmapped : l.shm_buffer = true) (h4 : 4 ≤ msg.length) :
    processDisplaySwitch l msg mmapOk =
      some ({ l with width := msg.getD 2 0, height := msg.getD 3 0,
                     format := msg.getD 1 0 }, emptyOutput) := by
  simp [processDisplaySwitch, hmapped, show ¬ msg.length < 4 by omega]

/-- C5 witness: a resize on an already-mapped listener. -/
theorem C5_map_at_most_once_witness :
    ({ vm_id := 42, width := 1920, height := 1080, format := 67, shm_buffer := true,
       peerlist := [], targetFPS := 30, stop := false } : RDPListener).shm_buffer = true
  ∧ 4 ≤ ([1, 87, 800, 600] : List Nat).length
  ∧ processDisplaySwitch
      { vm_id := 42, width := 1920, height := 1080, format := 67, shm_buffer := true,
        peerlist := [], targetFPS := 30, stop := false } [1, 87, 800, 600] false =
      some ({ vm_id := 42, width := 800, height := 600, format := 87, shm_buffer := true,
              peerlist := [], targetFPS := 30, stop := false }, emptyOutput) :=
  ⟨rfl, by decide,
   C5_map_at_most_once
     { vm_id := 42, width := 1920, height := 1080, format := 67, shm_buffer := true,
       peerlist := [], targetFPS := 30, stop := false } [1, 87, 800, 600] false rfl (by decide)⟩

/-- C6 counterexample: a listener whose stop flag is set still processes
a `DisplayUpdate` and performs an outbound enqueue — the dispatch never
consults the stop flag, so `onIncoming` is not a no-op after stop. -/
theorem C6_stop_counterexample :
    processIncomingMessage
      { vm_id := 1, width := 640, height := 480, format := 87, shm_buffer := true,
        peerlist := [], targetFPS := 30, stop := true }
      [0, 10, 20, 100, 200] true =
      some ({ vm_id := 1, width := 640, height := 480, format := 87, shm_buffer := true,
              peerlist := [], targetFPS := 30, stop := true },
            { sent := [[2, 1, 30]], peerCalls := [], shmOpenCalls := 0, mmapCalls := 0 })
  ∧ ([[2, 1, 30]] : List (List Nat)) ≠ [] :=
  ⟨rfl, by decide⟩

/-- C6 (amended): setting the stop flag does not gate `onIncoming`: the
dispatch never reads `stop`, so subsequent calls behave exactly as
before — a `DisplayUpdate` still enqueues its ack, and a `DisplaySwitch`
on an unmapped listener still opens and maps the framebuffer. -/
theorem C6_stop_not_gating_amended (l : RDPListener) (msg : List Nat)
    (mmapOk : Bool) (hstop : l.stop = true) :
    (5 ≤ msg.length → msg.headD 9 = 0 →
      processIncomingMessage l msg mmapOk =
        some (l, { sent := [[2, 1, l.targetFPS % u16Mod]], peerCalls := [],
                   shmOpenCalls := 0, mmapCalls := 0 }))
  ∧ (4 ≤ msg.length → msg.headD 9 = 1 → l.shm_buffer = false → mmapOk = true →
      processIncomingMessage l msg mmapOk =
        some ({ l with shm_buffer := true, width := msg.getD 2 0,
                       height := msg.getD 3 0, format := msg.getD 1 0 },
              { sent := [], peerCalls := [], shmOpenCalls := 1, mmapCalls := 1 })) := by
  constructor
  · intro h5 h0
    cases msg with
    | nil => simp at h5
    | cons t rest =>
      simp only [List.headD_cons] at h0
      subst h0
      simp only [processIncomingMessage, if_pos rfl]
      simp only [List.length_cons] at h5
      simp [processDisplayUpdate]
      omega
  · intro h4 h1 hbuf hm
    subst hm
    cases msg with
    | nil => simp at h4
    | cons t rest =>
      simp only [List.headD_cons] at h1
      subst h1
      simp only [processIncomingMessage]
      norm_num
      simp only [List.length_cons] at h4
      simp [processDisplaySwitch, hbuf]
      omega

/-- C6 witness: both effects after stop, at a concrete listener. -/
theorem C6_stop_not_gating_amended_witness :
    ({ vm_id := 3, width := 0, height := 0, format := 0, shm_buffer := false,
       peerlist := [], targetFPS := 30, stop := true } : RDPListener).stop = true
  ∧ processIncomingMessage
      { vm_id := 3, width := 0, height := 0, format := 0, shm_buffer := false,
        peerlist := [], targetFPS := 30, stop := true } [1, 87, 800, 600] true =
      some ({ vm_id := 3, width := 800, height := 600, format := 87, shm_buffer := true,
              peerlist := [], targetFPS := 30, stop := true },
            { sent := [], peerCalls := [], shmOpenCalls := 1, mmapCalls := 1 }) :=
  ⟨rfl,
   (C6_stop_not_gating_amended
     { vm_id := 3, width := 0, height := 0, format := 0, shm_buffer := false,
       peerlist := [], targetFPS := 30, stop := true } [1, 87, 800, 600] true rfl).2
     (by decide) (by decide) rfl rfl⟩

/-- C7: when no framebuffer is mapped and the open/map pair fails, a
`DisplaySwitch` returns with the listener state exactly as before —
`width`, `height`, `format` and the absent mapping unchanged — and sends
nothing; the only trace is the attempted `shm_open`/`mmap` call pair. -/
theorem C7_map_fail_no_state_change (l : RDPListener) (msg : List Nat)
    (hnomap : l.shm_buffer = false) (h4 : 4 ≤ msg.length) :
    processDisplaySwitch l msg false =
      some (l, { sent := [], peerCalls := [], shmOpenCalls := 1, mmapCalls := 1 }) := by
  simp [processDisplaySwitch, hnomap, show ¬ msg.length < 4 by omega]

/-- C7 witness: a failed first map at a concrete listener. -/
theorem C7_map_fail_no_state_change_witness :
    (initListener 42 0 0 0).shm_buffer = false
  ∧ 4 ≤ ([1, 67, 1920, 1080] : List Nat).length
  ∧ processDisplaySwitch (initListener 42 0 0 0) [1, 67, 1920, 1080] false =
      some (initListener 42 0 0 0,
            { sent := [], peerCalls := [], shmOpenCalls := 1, mmapCalls := 1 }) :=
  ⟨rfl, by decide,
   C7_map_fail_no_state_change (initListener 42 0 0 0) [1, 67, 1920, 1080] rfl (by decide)⟩

/-- C8: the bytes `[0x93, 0, 10, 20]` encode an array `[0, 10, 20]` — tag
`DisplayUpdate` with only two of its four fields; decoding yields
`Truncated`, the listener step on those bytes enqueues nothing and leaves
the state unchanged, and, in general, `mux_msg_reader` rejects every read
that would pass the buffer end. -/
theorem C8_truncated_frame :
    decodeMuxIncoming [0x93, 0, 10, 20] = .error .truncated
  ∧ (∀ (l : RDPListener) (mmapOk : Bool),
      listenerStep l [0x93, 0, 10, 20] mmapOk = some (l, emptyOutput))
  ∧ (∀ (bs : List Nat) (limit : Nat), bs.length < limit →
      mux_msg_reader bs limit = none) := by
  refine ⟨rfl, fun l mmapOk => rfl, ?_⟩
  intro bs limit h
  simp [mux_msg_reader, h]

/-- C8 witness: the truncated frame at a concrete listener, and a
concrete out-of-bounds read. -/
theorem C8_truncated_frame_witness :
    listenerStep (initListener 9 0 0 0) [0x93, 0, 10, 20] true =
      some (initListener 9 0 0 0, emptyOutput)
  ∧ ([1, 2] : List Nat).length < 5
  ∧ mux_msg_reader [1, 2] 5 = none :=
  ⟨C8_truncated_frame.2.1 (initListener 9 0 0 0) true, by decide,
   C8_truncated_frame.2.2 [1, 2] 5 (by decide)⟩

/-- C9 counterexample: `registerPeer` on a listener with a mapped
framebuffer — the claim predicts the peer set grows to one and the peer
receives one full-display update; the source body is commented out, so
the peer set stays empty and zero peer calls are made. -/
theorem C9_registerPeer_counterexample :
    registerPeer
      { vm_id := 1, width := 800, height := 600, format := 87, shm_buffer := true,
        peerlist := [], targetFPS := 30, stop := false } { captureFps := 24 } =
      ({ vm_id := 1, width := 800, height := 600, format := 87, shm_buffer := true,
         peerlist := [], targetFPS := 30, stop := false }, emptyOutput)
  ∧ emptyOutput.peerCalls.length = 0
  ∧ ({ vm_id := 1, width := 800, height := 600, format := 87, shm_buffer := true,
       peerlist := [], targetFPS := 30, stop := false } : RDPListener).peerlist.length = 0
  ∧ (0 : Nat) ≠ 1 :=
  ⟨rfl, rfl, rfl, by decide⟩

/-- C9 (amended): `registerPeer` is a no-op in the source — its entire
body is commented out — so it neither adds the peer to the peer set nor
sends the peer any update, whether or not a framebuffer is mapped. -/
theorem C9_registerPeer_amended (l : RDPListener) (p : RDPPeer) :
    registerPeer l p = (l, emptyOutput) :=
  rfl

/-- C10: the shim decoder never invokes
`mux_process_incoming_complete_msg`: for every input, the display state
(including the stored framerate) is returned unchanged, and on any
message whose tag reads as `DISPLAY_UPDATE_COMPLETE = 2` the dispatch
returns at once with no callback and the payload unread. -/
theorem C10_complete_msg_dropped :
    (∀ (d : ShimDisplay) (buf : List Nat), (mux_process_incoming_msg d buf).1 = d)
  ∧ (∀ (d : ShimDisplay) (buf : List Nat) (n : Nat) (bs1 bs2 : List Nat),
      cmp_read_array buf = .ok (n, bs1) → cmp_read_uint bs1 = .ok (2, bs2) →
      mux_process_incoming_msg d buf = (d, none)) := by
  constructor
  · intro d buf
    cases h1 : cmp_read_array buf with
    | error e => simp [mux_process_incoming_msg, h1]
    | ok p =>
      obtain ⟨n, bs1⟩ := p
      cases h2 : cmp_read_uint bs1 with
      | error e => simp [mux_process_incoming_msg, h1, h2]
      | ok q =>
        obtain ⟨t, bs2⟩ := q
        simp only [mux_process_incoming_msg, h1, h2]
        split_ifs <;> rfl
  · intro d buf n bs1 bs2 h1 h2
    simp [mux_process_incoming_msg, h1, h2]

/-- C10 witness: the encoded `DisplayUpdateComplete(1, 30)` message is
dropped with the framerate state unchanged. -/
theorem C10_complete_msg_dropped_witness :
    cmp_read_array [0x93, 2, 1, 30] = .ok (3, [2, 1, 30])
  ∧ cmp_read_uint [2, 1, 30] = .ok (2, [1, 30])
  ∧ mux_process_incoming_msg ⟨9⟩ [0x93, 2, 1, 30] = (⟨9⟩, none)
  ∧ (mux_process_incoming_msg ⟨9⟩ [0x93, 2, 1, 30]).1 = ⟨9⟩ :=
  ⟨rfl, rfl,
   C10_complete_msg_dropped.2 ⟨9⟩ [0x93, 2, 1, 30] 3 [2, 1, 30] [1, 30] rfl rfl,
   C10_complete_msg_dropped.1 ⟨9⟩ [0x93, 2, 1, 30]⟩

end RDPMux
